import Mathlib

/-!
Shallow embedding of the Silver Metrics Tracker normalization engine:
`scripts/normalize.py` (status classifier, per-metric normalizers, composite
aggregator, current-metrics pipeline), `scripts/config.py` (threshold tables)
and `scripts/db.py` (`get_inventory_trend`).

Python floats are embedded as rationals (`ℚ`), day counts as integers,
threshold dictionaries as structures whose optional keys are `Option`-valued,
and the storage reads performed by `get_current_metrics` as an explicit `DB`
record of fetched rows (`none` = row absent). Wall-clock dates are embedded as
the number of days between `datetime.now()` and the stored timestamp.
-/

namespace SilverMetrics

/-- Generic threshold dictionary as consumed by `determine_status`
(normalize.py lines 26-61). A `none` field models an absent key; keys the
classifier never reads (`watch`, `elevated`) are not represented here. -/
structure Thresholds where
  extreme : Option ℚ := none
  stressed : Option ℚ := none
  normal_high : Option ℚ := none
  critical : Option ℚ := none
  healthy : Option ℚ := none
  normal_low : Option ℚ := none
deriving DecidableEq, Repr

/-- Python `'k' in thresholds and value >= thresholds['k']`. -/
def hitGE (value : ℚ) : Option ℚ → Bool
  | some t => decide (t ≤ value)
  | none => false

/-- Python `'k' in thresholds and value > thresholds['k']`. -/
def hitGT (value : ℚ) : Option ℚ → Bool
  | some t => decide (t < value)
  | none => false

/-- Python `'k' in thresholds and value <= thresholds['k']`. -/
def hitLE (value : ℚ) : Option ℚ → Bool
  | some t => decide (value ≤ t)
  | none => false

/-- Python `'k' in thresholds and value < thresholds['k']`. -/
def hitLT (value : ℚ) : Option ℚ → Bool
  | some t => decide (value < t)
  | none => false

/-- `determine_status` from normalize.py lines 26-61. -/
def determine_status (value : ℚ) (thresholds : Thresholds)
    (higher_is_worse : Bool := true) : String × String :=
  if higher_is_worse then
    if hitGE value thresholds.extreme then ("red", "Extreme")
    else if hitGE value thresholds.stressed then ("red", "Stressed")
    else if hitGT value thresholds.normal_high then ("yellow", "Elevated")
    else ("green", "Normal")
  else
    if hitLE value thresholds.critical then ("red", "Critical")
    else if hitLE value thresholds.stressed then ("red", "Stressed")
    else if hitLT value thresholds.healthy then
      if hitGE value thresholds.normal_low then ("yellow", "Watchable")
      else ("yellow", "Low")
    else ("green", "Healthy")

/-- Shape of config.py's `lease_rate` and `premium_pct` threshold dicts. -/
structure HigherThresholds where
  normal_low : ℚ
  normal_high : ℚ
  watch : ℚ
  stressed : ℚ
  extreme : ℚ
deriving DecidableEq, Repr

/-- The dictionary handed to `determine_status` (its `watch` key is never
read by the classifier, so it has no `Thresholds` field). -/
def HigherThresholds.toDict (t : HigherThresholds) : Thresholds :=
  { extreme := some t.extreme, stressed := some t.stressed,
    normal_high := some t.normal_high, normal_low := some t.normal_low }

/-- Shape of config.py's `inventory_total` and `inventory_registered` dicts. -/
structure LowerThresholds where
  healthy : ℚ
  normal_low : ℚ
  stressed : ℚ
  critical : ℚ
deriving DecidableEq, Repr

def LowerThresholds.toDict (t : LowerThresholds) : Thresholds :=
  { healthy := some t.healthy, normal_low := some t.normal_low,
    stressed := some t.stressed, critical := some t.critical }

/-- Shape of config.py's `margin_stability_days` dict. -/
structure StabilityThresholds where
  stable : ℤ
  normalizing : ℤ
  volatile : ℤ
deriving DecidableEq, Repr

/-- Shape of config.py's `margin_pct_notional` dict. -/
structure PctNotionalThresholds where
  normal_low : ℚ
  normal_high : ℚ
  elevated : ℚ
  extreme : ℚ
deriving DecidableEq, Repr

/-- Shape of config.py's `shanghai_premium` dict. -/
structure ShanghaiThresholds where
  normal_high : ℚ
  elevated : ℚ
  stressed : ℚ
deriving DecidableEq, Repr

/-- The per-metric sub-dictionaries of config.py's `THRESHOLDS` that the
normalizers read (`premium_usd_coins` is read by no code under test). -/
structure ThresholdsConfig where
  lease_rate : HigherThresholds
  premium_pct : HigherThresholds
  inventory_total : LowerThresholds
  inventory_registered : LowerThresholds
  margin_stability_days : StabilityThresholds
  margin_pct_notional : PctNotionalThresholds
  shanghai_premium : ShanghaiThresholds
deriving DecidableEq, Repr

/-- `THRESHOLDS` from config.py lines 49-124. -/
def THRESHOLDS : ThresholdsConfig where
  lease_rate := ⟨3/10, 3, 5, 10, 20⟩
  premium_pct := ⟨5, 15, 20, 30, 50⟩
  inventory_total := ⟨400, 350, 300, 250⟩
  inventory_registered := ⟨100, 75, 50, 30⟩
  margin_stability_days := ⟨30, 14, 7⟩
  margin_pct_notional := ⟨7, 9, 10, 12⟩
  shanghai_premium := ⟨2, 5, 8⟩

/-- Shape of config.py's `COMPOSITE_THRESHOLDS` dict (the `stressed` key is
never read by `calculate_composite_score`). -/
structure CompositeThresholds where
  easing : ℕ
  mixed : ℕ
  stressed : ℕ
deriving DecidableEq, Repr

/-- `COMPOSITE_THRESHOLDS` from config.py lines 128-132. -/
def COMPOSITE_THRESHOLDS : CompositeThresholds := ⟨4, 2, 1⟩

/-- Round a rational to the nearest integer, ties to even — the semantics of
Python's built-in `round` on exact values. -/
def roundHalfEven (q : ℚ) : ℤ :=
  let f := ⌊q⌋
  let r := q - (f : ℚ)
  if r < 1/2 then f
  else if 1/2 < r then f + 1
  else if f % 2 = 0 then f else f + 1

/-- Python `round(q, dp)`. -/
def roundTo (dp : ℕ) (q : ℚ) : ℚ :=
  (roundHalfEven (q * (10 : ℚ) ^ dp) : ℚ) / (10 : ℚ) ^ dp

/-- Return value of `get_inventory_trend` (db.py lines 371-395); `start_moz`
and `end_moz` are absent from the fewer-than-2-points dictionary. -/
structure TrendResult where
  trend : String
  change_moz : ℚ
  data_points : ℕ
  start_moz : Option ℚ
  end_moz : Option ℚ
deriving DecidableEq, Repr

/-- `get_inventory_trend` from db.py lines 371-395, over the ascending
`total_oz` series that `get_historical_data('inventory', days)` returns for
the window. -/
def get_inventory_trend (data : List ℚ) : TrendResult :=
  if data.length < 2 then
    { trend := "unknown", change_moz := 0, data_points := data.length,
      start_moz := none, end_moz := none }
  else
    let first := data.headI
    let last := data.getLastD 0
    let change := last - first
    let change_moz := change / 1000000
    let trend :=
      if change_moz > 5 then "recovering"
      else if change_moz < -5 then "declining"
      else "stable"
    { trend := trend, change_moz := roundTo 2 change_moz,
      data_points := data.length,
      start_moz := some (roundTo 2 (first / 1000000)),
      end_moz := some (roundTo 2 (last / 1000000)) }

/-- Common return shape of `normalize_lease_rate`, `normalize_premium` and
`normalize_shanghai_premium` (they build dictionaries with the same keys). -/
structure StatusResult where
  metric : String
  value : ℚ
  unit : String
  status_color : String
  status_label : String
  is_normalizing : Bool
  threshold_normal : String
  description : String
deriving DecidableEq, Repr

/-- `normalize_lease_rate` from normalize.py lines 64-85. -/
def normalize_lease_rate (rate_pct : ℚ) : StatusResult :=
  let thresholds := THRESHOLDS.lease_rate
  let cl := determine_status rate_pct thresholds.toDict true
  { metric := "lease_rate", value := rate_pct, unit := "%",
    status_color := cl.1, status_label := cl.2,
    is_normalizing := decide (rate_pct ≤ thresholds.normal_high),
    threshold_normal := "0.3-3.0%",
    description := "Cost to borrow physical silver" }

/-- `normalize_premium` from normalize.py lines 88-108. -/
def normalize_premium (premium_pct : ℚ) : StatusResult :=
  let thresholds := THRESHOLDS.premium_pct
  let cl := determine_status premium_pct thresholds.toDict true
  { metric := "premium", value := premium_pct, unit := "% over spot",
    status_color := cl.1, status_label := cl.2,
    is_normalizing := decide (premium_pct ≤ thresholds.normal_high),
    threshold_normal := "5.0-15.0%",
    description := "Physical silver price vs paper/spot" }

/-- `normalize_shanghai_premium` from normalize.py lines 158-191. -/
def normalize_shanghai_premium (premium_usd : ℚ) : StatusResult :=
  let thresholds := THRESHOLDS.shanghai_premium
  let cl :=
    if premium_usd ≤ thresholds.normal_high then ("green", "Normal", true)
    else if premium_usd ≤ thresholds.elevated then ("yellow", "Elevated", false)
    else ("red", "Stressed", false)
  { metric := "shanghai_premium", value := premium_usd, unit := "$/oz",
    status_color := cl.1, status_label := cl.2.1, is_normalizing := cl.2.2,
    threshold_normal := "≤$2.0/oz",
    description := "Shanghai vs Western silver price difference" }

/-- Return shape of `normalize_inventory`; `registered_moz` and
`registered_status` model the two keys added only when a registered figure is
supplied. The `raw` echo sub-dictionary attached by the caller is not part of
the normalizer. -/
structure InventoryResult where
  metric : String
  value : ℚ
  unit : String
  status_color : String
  status_label : String
  is_normalizing : Bool
  threshold_normal : String
  trend : String
  trend_change_moz : ℚ
  description : String
  registered_moz : Option ℚ
  registered_status : Option String
deriving DecidableEq, Repr

/-- `normalize_inventory` from normalize.py lines 111-155. The trend series
(the ascending `total_oz` window that `get_inventory_trend(days=14)` reads
from storage) is passed explicitly. -/
def normalize_inventory (total_moz : ℚ) (registered_moz : Option ℚ)
    (trendData : List ℚ) : InventoryResult :=
  let thresholds := THRESHOLDS.inventory_total
  let cl := determine_status total_moz thresholds.toDict false
  let is_recovering := decide (thresholds.healthy ≤ total_moz)
  let trendR := get_inventory_trend trendData
  let trend_label := trendR.trend
  let adjusted :=
    if trend_label = "recovering" ∧ cl.1 ≠ "green" then
      (cl.1, cl.2 ++ " (Recovering)")
    else if trend_label = "declining" ∧ cl.1 = "green" then
      ("yellow", "Declining")
    else cl
  let registered_status := registered_moz.map (fun r =>
    (determine_status r THRESHOLDS.inventory_registered.toDict false).2)
  { metric := "inventory", value := total_moz, unit := "M oz",
    status_color := adjusted.1, status_label := adjusted.2,
    is_normalizing := is_recovering || decide (trend_label = "recovering"),
    threshold_normal := ">400.0M oz",
    trend := trend_label, trend_change_moz := trendR.change_moz,
    description := "COMEX warehouse silver stocks",
    registered_moz := registered_moz,
    registered_status := registered_status }

/-- Return shape of `normalize_margin`; `pct_of_notional` and
`pct_threshold_normal` model the two keys added only when a (truthy) spot
price is supplied. -/
structure MarginResult where
  metric : String
  value : ℚ
  unit : String
  days_since_change : ℤ
  status_color : String
  status_label : String
  is_normalizing : Bool
  threshold_stable : String
  description : String
  pct_of_notional : Option ℚ
  pct_threshold_normal : Option String
deriving DecidableEq, Repr

/-- The explicit `last_change_date` argument of `normalize_margin` combined
with the `get_margin_last_change_date()` fallback used when it is `None`
(normalize.py lines 207-208), both given as days before `datetime.now()`. -/
def effectiveChangeDays (last_change_days db_last_change_days : Option ℤ) : Option ℤ :=
  match last_change_days with
  | some d => some d
  | none => db_last_change_days

/-- Stability classification of `normalize_margin`
(normalize.py lines 217-228): (color, label, is_normalizing). -/
def marginStability (days_stable : ℤ) : String × String × Bool :=
  let thresholds := THRESHOLDS.margin_stability_days
  if days_stable ≥ thresholds.stable then ("green", "Stable", true)
  else if days_stable ≥ thresholds.normalizing then ("yellow", "Stabilizing", true)
  else ("red", "Volatile", false)

/-- Secondary percent-of-notional check of `normalize_margin`
(normalize.py lines 236-246), applied to the stability triple. -/
def marginPctCheck (st : String × String × Bool) (pct_notional : ℚ) : String × String × Bool :=
  let pct_thresholds := THRESHOLDS.margin_pct_notional
  if pct_notional > pct_thresholds.extreme then
    if st.1 ≠ "red" then ("red", "Elevated (High %)", false)
    else (st.1, st.2.1, false)
  else if pct_notional > pct_thresholds.elevated then
    if st.1 = "green" then ("yellow", "Watch (>10% notional)", st.2.2)
    else st
  else st

/-- `normalize_margin` from normalize.py lines 194-265. A `spot_price` of
`some 0` is falsy in Python (`if spot_price:`), so the percent-of-notional
section is skipped for it exactly as for `none`. -/
def normalize_margin (initial_margin : ℚ) (spot_price : Option ℚ)
    (last_change_days db_last_change_days : Option ℤ) : MarginResult :=
  let days_stable := (effectiveChangeDays last_change_days db_last_change_days).getD 30
  let st := marginStability days_stable
  let pct_notional : Option ℚ :=
    match spot_price with
    | some p => if p = 0 then none else some (initial_margin / (5000 * p) * 100)
    | none => none
  let final :=
    match pct_notional with
    | some pct => marginPctCheck st pct
    | none => st
  { metric := "margin", value := initial_margin, unit := "USD",
    days_since_change := days_stable,
    status_color := final.1, status_label := final.2.1,
    is_normalizing := final.2.2,
    threshold_stable := "30+ days unchanged",
    description := "CME initial margin for silver futures",
    pct_of_notional := pct_notional.map (roundTo 2),
    pct_threshold_normal := pct_notional.map (fun _ => "7.0-9.0%") }

/-- One value of the metrics mapping iterated by `calculate_composite_score`
(normalize.py lines 283-287): `none` models a stored Python `None`,
`some none` a (truthy) dictionary without an `is_normalizing` key, and
`some (some b)` a dictionary whose `is_normalizing` flag is `b`. -/
def entryFlag : Option (Option Bool) → Option Bool
  | some (some b) => some b
  | _ => none

/-- Return shape of `calculate_composite_score`; `percentage` is absent from
the no-data dictionary. -/
structure CompositeResult where
  score : ℕ
  total : ℕ
  percentage : Option ℚ
  status_color : String
  status_label : String
  description : String
deriving DecidableEq, Repr

/-- `calculate_composite_score` from normalize.py lines 268-319. The function
reads `COMPOSITE_THRESHOLDS` from the config module; the table is passed here
as an explicit argument and instantiated with `COMPOSITE_THRESHOLDS` at the
call site. -/
def calculate_composite_score (ct : CompositeThresholds)
    (metrics : List (Option (Option Bool))) : CompositeResult :=
  let flags := metrics.filterMap entryFlag
  let total_metrics := flags.length
  let normalizing_count := (flags.filter (fun b => b)).length
  if total_metrics = 0 then
    { score := 0, total := 0, percentage := none,
      status_color := "gray", status_label := "No Data",
      description := "Insufficient data" }
  else
    let cl :=
      if normalizing_count ≥ ct.easing then ("green", "Market Easing")
      else if normalizing_count ≥ ct.mixed then ("yellow", "Mixed Signals")
      else ("red", "Market Stress")
    { score := normalizing_count, total := total_metrics,
      percentage := some (roundTo 1 ((normalizing_count : ℚ) / (total_metrics : ℚ) * 100)),
      status_color := cl.1, status_label := cl.2,
      description := toString normalizing_count ++ "/" ++ toString total_metrics
        ++ " indicators normalizing" }

/-- Row of the `spot_prices` table as returned by `get_latest_spot_price`
(only the columns `get_current_metrics` reads). -/
structure SpotRow where
  price_usd : ℚ
  change_pct_24h : Option ℚ
  source : String
  timestamp : String
deriving DecidableEq, Repr

/-- Row returned by `get_latest_premium`. -/
structure PremiumRow where
  premium_pct : ℚ
  spot_price : ℚ
  physical_price : ℚ
  premium_usd : ℚ
deriving DecidableEq, Repr

/-- Row returned by `get_latest_inventory`. -/
structure InventoryRow where
  total_oz : ℚ
  registered_oz : ℚ
  eligible_oz : ℚ
deriving DecidableEq, Repr

/-- Row returned by `get_latest_margin`. -/
structure MarginRow where
  initial_margin : ℚ
  maintenance_margin : ℚ
deriving DecidableEq, Repr

/-- Row of `get_historical_data('lease_rates', days=1)`. -/
structure LeaseRow where
  rate_pct : ℚ
  source : String
deriving DecidableEq, Repr

/-- Row returned by `get_latest_shanghai_premium`. -/
structure ShanghaiRow where
  premium_usd : ℚ
  shanghai_spot : ℚ
  western_spot : ℚ
  premium_pct : ℚ
deriving DecidableEq, Repr

/-- The storage reads performed during one `get_current_metrics` cycle,
bundled as one value: `none` models an absent row. `inventory_series` is the
ascending `total_oz` window read by `get_inventory_trend(days=14)`, and
`margin_last_change_days` the result of `get_margin_last_change_date()`
expressed as days before `datetime.now()`. -/
structure DB where
  spot : Option SpotRow
  premium : Option PremiumRow
  inventory : Option InventoryRow
  margin : Option MarginRow
  lease_rates : List LeaseRow
  shanghai : Option ShanghaiRow
  inventory_series : List ℚ
  margin_last_change_days : Option ℤ
deriving DecidableEq, Repr

/-- The `spot_price` entry of the metrics mapping
(normalize.py lines 334-339). -/
structure SpotEntry where
  value : ℚ
  change_24h : Option ℚ
  source : String
  timestamp : String
deriving DecidableEq, Repr

/-- Return shape of `get_current_metrics`. The `lease_rate` entry is not
optional: the code substitutes a placeholder when no lease data exists. The
`shanghai_premium` key is always present but its value may be Python `None`
(modelled as `none`). The `raw` echo sub-dictionaries (verbatim copies of the
fetched rows) and the wall-clock `last_updated` string are not modelled. -/
structure CurrentMetrics where
  spot_price : Option SpotEntry
  premium : Option StatusResult
  inventory : Option InventoryResult
  margin : Option MarginResult
  lease_rate : StatusResult
  shanghai_premium : Option StatusResult
  composite : CompositeResult
deriving DecidableEq, Repr

/-- The `stress_metrics` mapping filtered out of the metrics dictionary
(normalize.py lines 405-408), reduced to the shape `calculate_composite_score`
inspects: present metrics contribute `some (some flag)`, the absent
`premium`/`inventory`/`margin` keys contribute nothing, and a stored `None`
under `shanghai_premium` contributes `none`. -/
def stressEntries (premium : Option StatusResult) (inventory : Option InventoryResult)
    (margin : Option MarginResult) (lease : StatusResult)
    (shanghai : Option StatusResult) : List (Option (Option Bool)) :=
  (premium.toList.map fun r => some (some r.is_normalizing))
    ++ (inventory.toList.map fun r => some (some r.is_normalizing))
    ++ (margin.toList.map fun r => some (some r.is_normalizing))
    ++ [some (some lease.is_normalizing)]
    ++ [shanghai.map (fun r => some r.is_normalizing)]

/-- `get_current_metrics` from normalize.py lines 322-414, as a function of
the storage reads it performs. -/
def get_current_metrics (db : DB) : CurrentMetrics :=
  let spot_price_value : Option ℚ := db.spot.map (fun s => s.price_usd)
  let spotE := db.spot.map (fun s =>
    { value := s.price_usd, change_24h := s.change_pct_24h,
      source := s.source, timestamp := s.timestamp : SpotEntry })
  let premiumR := db.premium.map (fun p => normalize_premium p.premium_pct)
  let inventoryR := db.inventory.map (fun i =>
    normalize_inventory (i.total_oz / 1000000) (some (i.registered_oz / 1000000))
      db.inventory_series)
  let marginR := db.margin.map (fun m =>
    normalize_margin m.initial_margin spot_price_value none db.margin_last_change_days)
  let leaseR :=
    match db.lease_rates.getLast? with
    | some row => normalize_lease_rate row.rate_pct
    | none => normalize_lease_rate (5/2)
  let shanghaiR := db.shanghai.map (fun s => normalize_shanghai_premium s.premium_usd)
  { spot_price := spotE, premium := premiumR, inventory := inventoryR,
    margin := marginR, lease_rate := leaseR, shanghai_premium := shanghaiR,
    composite := calculate_composite_score COMPOSITE_THRESHOLDS
      (stressEntries premiumR inventoryR marginR leaseR shanghaiR) }

/-- Status classifier as the specification's §4.1 states it, written from the
spec's words for comparison with `determine_status`. -/
def specClassify (value : ℚ) (t : Thresholds) (higher_is_worse : Bool) : String × String :=
  if higher_is_worse then
    if t.extreme.any (fun b => decide (value ≥ b)) then ("red", "Extreme")
    else if t.stressed.any (fun b => decide (value ≥ b)) then ("red", "Stressed")
    else if t.normal_high.any (fun b => decide (value > b)) then ("yellow", "Elevated")
    else ("green", "Normal")
  else
    if t.critical.any (fun b => decide (value ≤ b)) then ("red", "Critical")
    else if t.stressed.any (fun b => decide (value ≤ b)) then ("red", "Stressed")
    else if t.healthy.any (fun b => decide (value < b)) then
      if t.normal_low.any (fun b => decide (value ≥ b)) then ("yellow", "Watchable")
      else ("yellow", "Low")
    else ("green", "Healthy")

/-- Ratio-band classifier as the specification's §4.4 describes the composite
aggregator: normalizing ratio ≥ 0.75 green, ≥ 0.5 yellow, ≥ 0.25 orange,
else red. Written from the spec's words for comparison with
`calculate_composite_score`. -/
def specRatioBands (r : ℚ) : String :=
  if r ≥ 3/4 then "green"
  else if r ≥ 1/2 then "yellow"
  else if r ≥ 1/4 then "orange"
  else "red"

/-- Severity rank of a status color: green 0, yellow 1, red 2
(anything outside the classifier vocabulary ranks 3). -/
def colorSeverity (c : String) : ℕ :=
  if c = "green" then 0 else if c = "yellow" then 1 else if c = "red" then 2 else 3

/-- A cycle in which every storage read comes back empty. -/
def emptyDB : DB :=
  { spot := none, premium := none, inventory := none, margin := none,
    lease_rates := [], shanghai := none, inventory_series := [],
    margin_last_change_days := none }

lemma hitGE_mono {v1 v2 : ℚ} (hv : v1 ≤ v2) {o : Option ℚ}
    (h1 : hitGE v1 o = true) : hitGE v2 o = true := by
  cases o with
  | none => simp [hitGE] at h1
  | some t => simp only [hitGE, decide_eq_true_eq] at h1 ⊢; linarith

lemma hitGT_mono {v1 v2 : ℚ} (hv : v1 ≤ v2) {o : Option ℚ}
    (h1 : hitGT v1 o = true) : hitGT v2 o = true := by
  cases o with
  | none => simp [hitGT] at h1
  | some t => simp only [hitGT, decide_eq_true_eq] at h1 ⊢; linarith

lemma hitLE_anti {v1 v2 : ℚ} (hv : v1 ≤ v2) {o : Option ℚ}
    (h1 : hitLE v2 o = true) : hitLE v1 o = true := by
  cases o with
  | none => simp [hitLE] at h1
  | some t => simp only [hitLE, decide_eq_true_eq] at h1 ⊢; linarith

lemma hitLT_anti {v1 v2 : ℚ} (hv : v1 ≤ v2) {o : Option ℚ}
    (h1 : hitLT v2 o = true) : hitLT v1 o = true := by
  cases o with
  | none => simp [hitLT] at h1
  | some t => simp only [hitLT, decide_eq_true_eq] at h1 ⊢; linarith

/-- Severity of the color of `determine_status` in the higher-is-worse
direction, as a function of which breakpoints the value hits. -/
lemma severity_higher (v : ℚ) (t : Thresholds) :
    colorSeverity (determine_status v t true).1 =
      if hitGE v t.extreme = true ∨ hitGE v t.stressed = true then 2
      else if hitGT v t.normal_high = true then 1 else 0 := by
  unfold determine_status
  by_cases h1 : hitGE v t.extreme = true <;>
    by_cases h2 : hitGE v t.stressed = true <;>
      by_cases h3 : hitGT v t.normal_high = true <;>
        simp [h1, h2, h3, colorSeverity]

/-- Severity of the color of `determine_status` in the lower-is-worse
direction. Both yellow labels share severity 1, so the `normal_low` split
does not appear. -/
lemma severity_lower (v : ℚ) (t : Thresholds) :
    colorSeverity (determine_status v t false).1 =
      if hitLE v t.critical = true ∨ hitLE v t.stressed = true then 2
      else if hitLT v t.healthy = true then 1 else 0 := by
  unfold determine_status
  by_cases h1 : hitLE v t.critical = true <;>
    by_cases h2 : hitLE v t.stressed = true <;>
      by_cases h3 : hitLT v t.healthy = true <;>
        by_cases h4 : hitGE v t.normal_low = true <;>
          simp [h1, h2, h3, h4, colorSeverity]

/-- C5: `determine_status` follows exactly the specified decision chains for
both directions, over every value and every threshold dictionary (absent
keys are skipped and never raise): it agrees with the chain-by-chain
classifier transcribed from the specification. -/
theorem determine_status_follows_spec_chains (value : ℚ) (t : Thresholds) (hw : Bool) :
    determine_status value t hw = specClassify value t hw := by
  rcases t with ⟨e, s, nh, c, h, nl⟩
  cases hw <;> cases e <;> cases s <;> cases nh <;> cases c <;> cases h <;>
    cases nl <;> rfl

/-- C6: `determine_status` is monotonic. For higher-is-worse the severity of
the returned color (green 0 < yellow 1 < red 2) never decreases as the value
rises; for lower-is-worse it never increases. -/
theorem determine_status_monotone (t : Thresholds) (v1 v2 : ℚ) (hv : v1 ≤ v2) :
    colorSeverity (determine_status v1 t true).1 ≤
      colorSeverity (determine_status v2 t true).1 ∧
    colorSeverity (determine_status v2 t false).1 ≤
      colorSeverity (determine_status v1 t false).1 := by
  constructor
  · rw [severity_higher, severity_higher]
    by_cases hA1 : hitGE v1 t.extreme = true ∨ hitGE v1 t.stressed = true
    · have hA2 : hitGE v2 t.extreme = true ∨ hitGE v2 t.stressed = true :=
        hA1.imp (hitGE_mono hv) (hitGE_mono hv)
      simp [hA1, hA2]
    · by_cases hB1 : hitGT v1 t.normal_high = true
      · have hB2 := hitGT_mono hv hB1
        by_cases hA2 : hitGE v2 t.extreme = true ∨ hitGE v2 t.stressed = true <;>
          simp [hA1, hA2, hB1, hB2]
      · simp [hA1, hB1, Nat.zero_le]
  · rw [severity_lower, severity_lower]
    by_cases hA2 : hitLE v2 t.critical = true ∨ hitLE v2 t.stressed = true
    · have hA1 : hitLE v1 t.critical = true ∨ hitLE v1 t.stressed = true :=
        hA2.imp (hitLE_anti hv) (hitLE_anti hv)
      simp [hA1, hA2]
    · by_cases hB2 : hitLT v2 t.healthy = true
      · have hB1 := hitLT_anti hv hB2
        by_cases hA1 : hitLE v1 t.critical = true ∨ hitLE v1 t.stressed = true <;>
          simp [hA1, hA2, hB1, hB2]
      · simp [hA2, hB2, Nat.zero_le]

/-- Witness for `determine_status_monotone` at concrete inputs. -/
theorem determine_status_monotone_witness :
    colorSeverity (determine_status 1 THRESHOLDS.lease_rate.toDict true).1 ≤
      colorSeverity (determine_status 2 THRESHOLDS.lease_rate.toDict true).1 ∧
    colorSeverity (determine_status 2 THRESHOLDS.inventory_total.toDict false).1 ≤
      colorSeverity (determine_status 1 THRESHOLDS.inventory_total.toDict false).1 :=
  ⟨(determine_status_monotone THRESHOLDS.lease_rate.toDict 1 2 (by norm_num)).1,
   (determine_status_monotone THRESHOLDS.inventory_total.toDict 1 2 (by norm_num)).2⟩

/-- The `total` field of the composite equals the number of entries carrying
an `is_normalizing` flag, in the no-data case too. -/
lemma composite_total (ct : CompositeThresholds) (ms : List (Option (Option Bool))) :
    (calculate_composite_score ct ms).total = (ms.filterMap entryFlag).length := by
  unfold calculate_composite_score
  dsimp only
  split_ifs with h
  · simp [h]
  all_goals rfl

/-- Full shape of the composite when at least one entry carries a flag. -/
lemma composite_nonempty (ct : CompositeThresholds) (ms : List (Option (Option Bool)))
    (h : (ms.filterMap entryFlag).length ≠ 0) :
    calculate_composite_score ct ms =
      { score := ((ms.filterMap entryFlag).filter (fun b => b)).length,
        total := (ms.filterMap entryFlag).length,
        percentage := some (roundTo 1
          ((((ms.filterMap entryFlag).filter (fun b => b)).length : ℚ) /
            ((ms.filterMap entryFlag).length : ℚ) * 100)),
        status_color :=
          if ((ms.filterMap entryFlag).filter (fun b => b)).length ≥ ct.easing then "green"
          else if ((ms.filterMap entryFlag).filter (fun b => b)).length ≥ ct.mixed then "yellow"
          else "red",
        status_label :=
          if ((ms.filterMap entryFlag).filter (fun b => b)).length ≥ ct.easing then "Market Easing"
          else if ((ms.filterMap entryFlag).filter (fun b => b)).length ≥ ct.mixed then "Mixed Signals"
          else "Market Stress",
        description := toString ((ms.filterMap entryFlag).filter (fun b => b)).length ++ "/"
          ++ toString (ms.filterMap entryFlag).length ++ " indicators normalizing" } := by
  unfold calculate_composite_score
  rw [if_neg h]
  split_ifs <;> rfl

/-- C1, counterexample: with three metrics all normalizing the ratio is
3/3 = 1 ≥ 0.75, which the claim's ratio-band classification colors green, but
`calculate_composite_score` classifies the raw count 3 against
`COMPOSITE_THRESHOLDS` (easing 4, mixed 2) and returns yellow. -/
theorem composite_ignores_ratio_bands :
    (calculate_composite_score COMPOSITE_THRESHOLDS
        [some (some true), some (some true), some (some true)]).status_color = "yellow" ∧
    specRatioBands ((3 : ℚ) / 3) = "green" ∧
    ¬ ((calculate_composite_score COMPOSITE_THRESHOLDS
        [some (some true), some (some true), some (some true)]).status_color =
      specRatioBands ((3 : ℚ) / 3)) := by
  refine ⟨rfl, by norm_num [specRatioBands], ?_⟩
  intro h
  rw [show specRatioBands ((3 : ℚ) / 3) = "green" from by norm_num [specRatioBands]] at h
  exact absurd h (by decide)

/-- C1, amended: for every metrics mapping with at least one entry carrying
an `is_normalizing` flag, `calculate_composite_score` classifies the COUNT of
normalizing metrics against the externally configured count cutoffs (count ≥
`easing` gives green, else count ≥ `mixed` gives yellow, else red); the
normalizing ratio is only reported, rounded, in the `percentage` field. -/
theorem composite_counts_by_thresholds (ct : CompositeThresholds)
    (ms : List (Option (Option Bool)))
    (h : 1 ≤ (ms.filterMap entryFlag).length) :
    (calculate_composite_score ct ms).score =
      ((ms.filterMap entryFlag).filter (fun b => b)).length ∧
    (calculate_composite_score ct ms).total = (ms.filterMap entryFlag).length ∧
    (calculate_composite_score ct ms).status_color =
      (if ((ms.filterMap entryFlag).filter (fun b => b)).length ≥ ct.easing then "green"
       else if ((ms.filterMap entryFlag).filter (fun b => b)).length ≥ ct.mixed then "yellow"
       else "red") ∧
    (calculate_composite_score ct ms).percentage =
      some (roundTo 1 ((((ms.filterMap entryFlag).filter (fun b => b)).length : ℚ) /
        ((ms.filterMap entryFlag).length : ℚ) * 100)) := by
  have h0 : (ms.filterMap entryFlag).length ≠ 0 := by omega
  rw [composite_nonempty ct ms h0]
  exact ⟨rfl, rfl, rfl, rfl⟩

/-- Witness for `composite_counts_by_thresholds`: one flagged normalizing
entry, one flag-less dictionary, one `None`; the count 1 classifies red. -/
theorem composite_counts_by_thresholds_witness :
    (calculate_composite_score COMPOSITE_THRESHOLDS
      [some (some true), some none, none]).status_color = "red" ∧
    (calculate_composite_score COMPOSITE_THRESHOLDS
      [some (some true), some none, none]).score = 1 ∧
    (calculate_composite_score COMPOSITE_THRESHOLDS
      [some (some true), some none, none]).total = 1 := by
  have h := composite_counts_by_thresholds COMPOSITE_THRESHOLDS
    [some (some true), some none, none] (by decide)
  refine ⟨?_, ?_, ?_⟩
  · rw [h.2.2.1]; decide
  · rw [h.1]; decide
  · rw [h.2.1]; decide

/-- C7: the composite is monotonic in the number of normalizing metrics —
appending one more metric whose `is_normalizing` flag is true never worsens
the composite color (green best, then yellow, then red) whenever the mapping
already has a flagged entry; and the empty mapping yields gray/"No Data" with
score 0. -/
theorem composite_monotone_in_normalizing (ms : List (Option (Option Bool)))
    (h : 1 ≤ (ms.filterMap entryFlag).length) :
    colorSeverity (calculate_composite_score COMPOSITE_THRESHOLDS
        (ms ++ [some (some true)])).status_color ≤
      colorSeverity
        (calculate_composite_score COMPOSITE_THRESHOLDS ms).status_color ∧
    calculate_composite_score COMPOSITE_THRESHOLDS [] =
      { score := 0, total := 0, percentage := none, status_color := "gray",
        status_label := "No Data", description := "Insufficient data" } := by
  refine ⟨?_, rfl⟩
  have h0 : (ms.filterMap entryFlag).length ≠ 0 := by omega
  have happ : ((ms ++ [some (some true)]).filterMap entryFlag) =
      ms.filterMap entryFlag ++ [true] := by
    rw [List.filterMap_append]; rfl
  have h1 : ((ms ++ [some (some true)]).filterMap entryFlag).length ≠ 0 := by
    rw [happ]; simp
  rw [composite_nonempty _ _ h0, composite_nonempty _ _ h1]
  simp only [happ, List.filter_append, List.length_append]
  have hfilter : (List.filter (fun b => b) [true]).length = 1 := by decide
  rw [hfilter]
  simp only [COMPOSITE_THRESHOLDS]
  split_ifs <;> first | decide | omega

/-- Witness for `composite_monotone_in_normalizing` at a concrete mapping. -/
theorem composite_monotone_in_normalizing_witness :
    colorSeverity (calculate_composite_score COMPOSITE_THRESHOLDS
        ([some (some false)] ++ [some (some true)])).status_color ≤
      colorSeverity (calculate_composite_score COMPOSITE_THRESHOLDS
        [some (some false)]).status_color ∧
    calculate_composite_score COMPOSITE_THRESHOLDS [] =
      { score := 0, total := 0, percentage := none, status_color := "gray",
        status_label := "No Data", description := "Insufficient data" } :=
  composite_monotone_in_normalizing [some (some false)] (by decide)

/-- C2, counterexample: in a cycle where the lease-rate Observation is absent
(`emptyDB` has no lease data), `get_current_metrics` does NOT omit the
lease-rate metric: it substitutes the placeholder proxy value 2.5, the
normalizer runs on it (green, normalizing), and the composite counts it
(total 1, score 1) instead of excluding it. -/
theorem lease_placeholder_substituted :
    (get_current_metrics emptyDB).lease_rate.value = 5/2 ∧
    (get_current_metrics emptyDB).lease_rate.is_normalizing = true ∧
    (get_current_metrics emptyDB).lease_rate.status_color = "green" ∧
    (get_current_metrics emptyDB).composite.total = 1 ∧
    (get_current_metrics emptyDB).composite.score = 1 := by
  have hval : (get_current_metrics emptyDB).lease_rate = normalize_lease_rate (5/2) := rfl
  have hnorm : (normalize_lease_rate (5/2)).is_normalizing = true := by
    norm_num [normalize_lease_rate, THRESHOLDS]
  have hcol : (normalize_lease_rate (5/2)).status_color = "green" := by
    norm_num [normalize_lease_rate, determine_status, hitGE, hitGT, THRESHOLDS,
      HigherThresholds.toDict]
  refine ⟨by rw [hval]; rfl, by rw [hval, hnorm], by rw [hval, hcol], rfl, ?_⟩
  show (calculate_composite_score COMPOSITE_THRESHOLDS
    (stressEntries none none none (normalize_lease_rate (5/2)) none)).score = 1
  simp [stressEntries, calculate_composite_score, entryFlag, hnorm, List.filterMap,
    List.filter]

/-- C2, amended: for the premium, inventory and margin metrics an absent
Observation makes `get_current_metrics` omit the metric and the composite
exclude it; an absent Shanghai premium is carried as an explicit null entry
that the composite also excludes; but the lease-rate metric is never omitted —
with no lease data it is rebuilt from the placeholder proxy value 2.5 and
included in the composite. The pipeline is a total function, so no absence
ever raises. The composite's `total` counts exactly the present stress
metrics plus the always-present lease rate. -/
theorem absent_observation_handling (db : DB) :
    (db.premium = none → (get_current_metrics db).premium = none) ∧
    (db.inventory = none → (get_current_metrics db).inventory = none) ∧
    (db.margin = none → (get_current_metrics db).margin = none) ∧
    (db.shanghai = none → (get_current_metrics db).shanghai_premium = none) ∧
    (db.lease_rates = [] →
      (get_current_metrics db).lease_rate = normalize_lease_rate (5/2)) ∧
    (get_current_metrics db).composite.total =
      (if db.premium.isSome then 1 else 0) + (if db.inventory.isSome then 1 else 0) +
        (if db.margin.isSome then 1 else 0) + 1 +
        (if db.shanghai.isSome then 1 else 0) := by
  refine ⟨fun h => ?_, fun h => ?_, fun h => ?_, fun h => ?_, fun h => ?_, ?_⟩
  · simp [get_current_metrics, h]
  · simp [get_current_metrics, h]
  · simp [get_current_metrics, h]
  · simp [get_current_metrics, h]
  · simp [get_current_metrics, h]
  · show (calculate_composite_score _ _).total = _
    rw [composite_total]
    cases hp : db.premium <;> cases hi : db.inventory <;> cases hm : db.margin <;>
      cases hs : db.shanghai <;>
        simp [stressEntries, entryFlag, List.filterMap]

/-- Witness for `absent_observation_handling` at the all-absent cycle. -/
theorem absent_observation_handling_witness :
    (get_current_metrics emptyDB).premium = none ∧
    (get_current_metrics emptyDB).inventory = none ∧
    (get_current_metrics emptyDB).margin = none ∧
    (get_current_metrics emptyDB).shanghai_premium = none ∧
    (get_current_metrics emptyDB).lease_rate = normalize_lease_rate (5/2) ∧
    (get_current_metrics emptyDB).composite.total =
      (if emptyDB.premium.isSome then 1 else 0) +
        (if emptyDB.inventory.isSome then 1 else 0) +
        (if emptyDB.margin.isSome then 1 else 0) + 1 +
        (if emptyDB.shanghai.isSome then 1 else 0) :=
  ⟨(absent_observation_handling emptyDB).1 rfl,
   (absent_observation_handling emptyDB).2.1 rfl,
   (absent_observation_handling emptyDB).2.2.1 rfl,
   (absent_observation_handling emptyDB).2.2.2.1 rfl,
   (absent_observation_handling emptyDB).2.2.2.2.1 rfl,
   (absent_observation_handling emptyDB).2.2.2.2.2⟩

/-- The lower-is-worse branch of `determine_status`, exposed so the `ite`
chain is visible to rewriting. -/
lemma determine_status_false_eq (v : ℚ) (t : Thresholds) :
    determine_status v t false =
      (if hitLE v t.critical then ("red", "Critical")
       else if hitLE v t.stressed then ("red", "Stressed")
       else if hitLT v t.healthy then
         if hitGE v t.normal_low then ("yellow", "Watchable") else ("yellow", "Low")
       else ("green", "Healthy")) := rfl

/-- Below the `healthy` breakpoint the base inventory classification is never
green (with the configured inventory thresholds 250 < 300 < 350 < 400). -/
lemma inventory_base_not_green {v : ℚ}
    (h : v < THRESHOLDS.inventory_total.healthy) :
    (determine_status v THRESHOLDS.inventory_total.toDict false).1 ≠ "green" := by
  have h400 : v < 400 := by simpa [THRESHOLDS] using h
  have hhealthy : (THRESHOLDS.inventory_total.toDict).healthy = some 400 := rfl
  rw [determine_status_false_eq]
  split_ifs with h1 h2 h3 h4 <;> try decide
  exfalso
  rw [hhealthy] at h3
  simp only [hitLT, decide_eq_true_eq] at h3
  exact h3 h400

/-- At or above the `healthy` breakpoint the base inventory classification is
green/"Healthy". -/
lemma inventory_base_green {v : ℚ}
    (h : THRESHOLDS.inventory_total.healthy ≤ v) :
    determine_status v THRESHOLDS.inventory_total.toDict false =
      ("green", "Healthy") := by
  have h400 : (400 : ℚ) ≤ v := by simpa [THRESHOLDS] using h
  have hcrit : (THRESHOLDS.inventory_total.toDict).critical = some 250 := rfl
  have hstr : (THRESHOLDS.inventory_total.toDict).stressed = some 300 := rfl
  have hhealthy : (THRESHOLDS.inventory_total.toDict).healthy = some 400 := rfl
  rw [determine_status_false_eq, hcrit, hstr, hhealthy]
  have hc : ¬ hitLE v (some 250) = true := by
    simp only [hitLE, decide_eq_true_eq]
    intro hle; linarith
  have hs : ¬ hitLE v (some 300) = true := by
    simp only [hitLE, decide_eq_true_eq]
    intro hle; linarith
  have hh : ¬ hitLT v (some 400) = true := by
    simp only [hitLT, decide_eq_true_eq]
    intro hlt; linarith
  rw [if_neg hc, if_neg hs, if_neg hh]

/-- C3: `normalize_inventory` sets `is_normalizing` true iff the value is at
or above the `healthy` threshold OR the computed trend is "recovering"; a
value below `healthy` with a recovering trend keeps its base color and gets
" (Recovering)" appended to its label; a value at or above `healthy` (base
green) with a declining trend is downgraded to yellow/"Declining". -/
theorem inventory_trend_adjustments (total_moz : ℚ) (reg : Option ℚ)
    (series : List ℚ) :
    ((normalize_inventory total_moz reg series).is_normalizing =
      (decide (THRESHOLDS.inventory_total.healthy ≤ total_moz) ||
        decide ((get_inventory_trend series).trend = "recovering"))) ∧
    (total_moz < THRESHOLDS.inventory_total.healthy →
      (get_inventory_trend series).trend = "recovering" →
      (normalize_inventory total_moz reg series).status_color =
          (determine_status total_moz THRESHOLDS.inventory_total.toDict false).1 ∧
        (normalize_inventory total_moz reg series).status_label =
          (determine_status total_moz THRESHOLDS.inventory_total.toDict false).2
            ++ " (Recovering)") ∧
    (THRESHOLDS.inventory_total.healthy ≤ total_moz →
      (get_inventory_trend series).trend = "declining" →
      (normalize_inventory total_moz reg series).status_color = "yellow" ∧
        (normalize_inventory total_moz reg series).status_label = "Declining") := by
  refine ⟨rfl, fun hlt htr => ?_, fun hge htr => ?_⟩
  · have hng := inventory_base_not_green hlt
    unfold normalize_inventory
    dsimp only
    rw [if_pos ⟨htr, hng⟩]
    exact ⟨rfl, rfl⟩
  · have hg := inventory_base_green hge
    have hcond1 : ¬ ((get_inventory_trend series).trend = "recovering" ∧
        (determine_status total_moz THRESHOLDS.inventory_total.toDict false).1 ≠ "green") := by
      rintro ⟨hr, -⟩
      rw [htr] at hr
      exact absurd hr (by decide)
    have hcond2 : (get_inventory_trend series).trend = "declining" ∧
        (determine_status total_moz THRESHOLDS.inventory_total.toDict false).1 = "green" :=
      ⟨htr, by rw [hg]⟩
    unfold normalize_inventory
    dsimp only
    rw [if_neg hcond1, if_pos hcond2]
    exact ⟨rfl, rfl⟩

/-- Witness for `inventory_trend_adjustments`: 350 M oz with a +6 M oz trend
is annotated recovering; 450 M oz with a −6 M oz trend is downgraded. -/
theorem inventory_trend_adjustments_witness :
    ((normalize_inventory 350 none [0, 6000000]).status_color =
        (determine_status 350 THRESHOLDS.inventory_total.toDict false).1 ∧
      (normalize_inventory 350 none [0, 6000000]).status_label =
        (determine_status 350 THRESHOLDS.inventory_total.toDict false).2
          ++ " (Recovering)") ∧
    ((normalize_inventory 450 none [6000000, 0]).status_color = "yellow" ∧
      (normalize_inventory 450 none [6000000, 0]).status_label = "Declining") :=
  ⟨(inventory_trend_adjustments 350 none [0, 6000000]).2.1
      (by norm_num [THRESHOLDS]) (by norm_num [get_inventory_trend]),
   (inventory_trend_adjustments 450 none [6000000, 0]).2.2
      (by norm_num [THRESHOLDS]) (by norm_num [get_inventory_trend])⟩

/-- C8: `get_inventory_trend` returns "unknown" with zero change on fewer
than 2 points; otherwise the change is last minus first, in millions of
ounces, and the trend is "recovering" above +5, "declining" below −5, and
"stable" otherwise. -/
theorem trend_estimator_rule (series : List ℚ) :
    (series.length < 2 →
      get_inventory_trend series =
        { trend := "unknown", change_moz := 0, data_points := series.length,
          start_moz := none, end_moz := none }) ∧
    (2 ≤ series.length →
      (get_inventory_trend series).trend =
        (if (series.getLastD 0 - series.headI) / 1000000 > 5 then "recovering"
         else if (series.getLastD 0 - series.headI) / 1000000 < -5 then "declining"
         else "stable") ∧
      (get_inventory_trend series).change_moz =
        roundTo 2 ((series.getLastD 0 - series.headI) / 1000000)) := by
  constructor
  · intro h
    unfold get_inventory_trend
    rw [if_pos h]
  · intro h
    have h2 : ¬ series.length < 2 := by omega
    unfold get_inventory_trend
    rw [if_neg h2]
    exact ⟨rfl, rfl⟩

/-- Witness for `trend_estimator_rule` on a 1-point and a 2-point series. -/
theorem trend_estimator_rule_witness :
    get_inventory_trend [(1000000 : ℚ)] =
      { trend := "unknown", change_moz := 0,
        data_points := [(1000000 : ℚ)].length,
        start_moz := none, end_moz := none } ∧
    ((get_inventory_trend [(0 : ℚ), 6500000]).trend =
      (if (([(0 : ℚ), 6500000].getLastD 0 - [(0 : ℚ), 6500000].headI) / 1000000 > 5)
        then "recovering"
        else if (([(0 : ℚ), 6500000].getLastD 0 - [(0 : ℚ), 6500000].headI) / 1000000 < -5)
        then "declining" else "stable") ∧
      (get_inventory_trend [(0 : ℚ), 6500000]).change_moz =
        roundTo 2 (([(0 : ℚ), 6500000].getLastD 0 - [(0 : ℚ), 6500000].headI) / 1000000)) :=
  ⟨(trend_estimator_rule [(1000000 : ℚ)]).1 (by simp),
   (trend_estimator_rule [(0 : ℚ), 6500000]).2 (by simp)⟩

/-- Field-level shape of `normalize_margin` when the spot price is truthy:
the percent-of-notional is computed and the secondary check applied. -/
lemma normalize_margin_some (im p : ℚ) (la dbd : Option ℤ) (hp : p ≠ 0) :
    (normalize_margin im (some p) la dbd).status_color =
      (marginPctCheck (marginStability ((effectiveChangeDays la dbd).getD 30))
        (im / (5000 * p) * 100)).1 ∧
    (normalize_margin im (some p) la dbd).is_normalizing =
      (marginPctCheck (marginStability ((effectiveChangeDays la dbd).getD 30))
        (im / (5000 * p) * 100)).2.2 ∧
    (normalize_margin im (some p) la dbd).pct_of_notional =
      some (roundTo 2 (im / (5000 * p) * 100)) := by
  unfold normalize_margin
  dsimp only
  rw [if_neg hp]
  exact ⟨rfl, rfl, rfl⟩

/-- Above the extreme percent-of-notional bound the final color is red and
the normalizing flag is cleared, whatever the stability triple was. -/
lemma marginPctCheck_extreme (st : String × String × Bool) (pct : ℚ)
    (h : pct > THRESHOLDS.margin_pct_notional.extreme) :
    (marginPctCheck st pct).1 = "red" ∧ (marginPctCheck st pct).2.2 = false := by
  unfold marginPctCheck
  dsimp only
  rw [if_pos h]
  by_cases hr : st.1 ≠ "red"
  · rw [if_pos hr]; exact ⟨rfl, rfl⟩
  · rw [if_neg hr]
    push_neg at hr
    exact ⟨hr, rfl⟩

/-- Between the elevated and extreme bounds a green stability triple is
downgraded to the watch state, keeping its normalizing flag. -/
lemma marginPctCheck_elevated (st : String × String × Bool) (pct : ℚ)
    (h1 : pct ≤ THRESHOLDS.margin_pct_notional.extreme)
    (h2 : pct > THRESHOLDS.margin_pct_notional.elevated)
    (hg : st.1 = "green") :
    marginPctCheck st pct = ("yellow", "Watch (>10% notional)", st.2.2) := by
  unfold marginPctCheck
  dsimp only
  rw [if_neg (not_lt.mpr h1), if_pos h2, if_pos hg]

/-- A red stability color survives the secondary check unchanged. -/
lemma marginPctCheck_red_stays (st : String × String × Bool) (pct : ℚ)
    (hr : st.1 = "red") : (marginPctCheck st pct).1 = "red" := by
  unfold marginPctCheck
  dsimp only
  split_ifs with h1 h2 h3 h4 <;> try rfl
  all_goals try exact hr
  rw [hr] at h4
  exact absurd h4 (by decide)

/-- At or below the extreme bound the secondary check never changes the
normalizing flag. -/
lemma marginPctCheck_flag_kept (st : String × String × Bool) (pct : ℚ)
    (h : pct ≤ THRESHOLDS.margin_pct_notional.extreme) :
    (marginPctCheck st pct).2.2 = st.2.2 := by
  unfold marginPctCheck
  dsimp only
  rw [if_neg (not_lt.mpr h)]
  split_ifs <;> rfl

/-- A green stability triple always carries a true normalizing flag. -/
lemma marginStability_green_flag (d : ℤ)
    (h : (marginStability d).1 = "green") : (marginStability d).2.2 = true := by
  unfold marginStability at h ⊢
  dsimp only at h ⊢
  split_ifs at h ⊢ <;> first | rfl | exact absurd h (by decide)

/-- C4: with a truthy reference spot price, `normalize_margin` reports the
margin as a (rounded) percentage of the 5000 oz notional, forces red above
the extreme bound regardless of stability, downgrades a green stability
color to yellow between the elevated and extreme bounds, and never changes a
stability-based red. -/
theorem margin_pct_escalation (im p : ℚ) (la dbd : Option ℤ) (hp : p ≠ 0) :
    (normalize_margin im (some p) la dbd).pct_of_notional =
      some (roundTo 2 (im / (5000 * p) * 100)) ∧
    (im / (5000 * p) * 100 > THRESHOLDS.margin_pct_notional.extreme →
      (normalize_margin im (some p) la dbd).status_color = "red") ∧
    (im / (5000 * p) * 100 > THRESHOLDS.margin_pct_notional.elevated →
      im / (5000 * p) * 100 ≤ THRESHOLDS.margin_pct_notional.extreme →
      (marginStability ((effectiveChangeDays la dbd).getD 30)).1 = "green" →
      (normalize_margin im (some p) la dbd).status_color = "yellow") ∧
    ((marginStability ((effectiveChangeDays la dbd).getD 30)).1 = "red" →
      (normalize_margin im (some p) la dbd).status_color = "red") := by
  obtain ⟨hc, hn, hpct⟩ := normalize_margin_some im p la dbd hp
  refine ⟨hpct, fun hx => ?_, fun he1 he2 hg => ?_, fun hr => ?_⟩
  · rw [hc]
    exact (marginPctCheck_extreme _ _ hx).1
  · rw [hc, marginPctCheck_elevated _ _ he2 he1 hg]
  · rw [hc]
    exact marginPctCheck_red_stays _ _ hr

/-- Witness for `margin_pct_escalation`: margin 650 at spot 1 is 13% of
notional (forced red); margin 550 is 11% (green stability downgraded to
yellow); with a 3-day-old change the stability red survives 13%. -/
theorem margin_pct_escalation_witness :
    (normalize_margin 650 (some 1) none none).pct_of_notional =
      some (roundTo 2 (650 / (5000 * 1) * 100)) ∧
    (normalize_margin 650 (some 1) none none).status_color = "red" ∧
    (normalize_margin 550 (some 1) none none).status_color = "yellow" ∧
    (normalize_margin 650 (some 1) (some 3) none).status_color = "red" :=
  ⟨(margin_pct_escalation 650 1 none none (by norm_num)).1,
   (margin_pct_escalation 650 1 none none (by norm_num)).2.1
      (by norm_num [THRESHOLDS]),
   (margin_pct_escalation 550 1 none none (by norm_num)).2.2.1
      (by norm_num [THRESHOLDS]) (by norm_num [THRESHOLDS]) rfl,
   (margin_pct_escalation 650 1 (some 3) none (by norm_num)).2.2.2 rfl⟩

/-- C9: with no explicit change date and no change history in storage,
`normalize_margin` defaults `days_since_change` to 30 — which the configured
stability thresholds (stable at 30 days) classify as green/"Stable" with
`is_normalizing` true: absent history is maximal stability, and the metric is
not skipped. -/
theorem margin_missing_history_is_stable (im : ℚ) (spot : Option ℚ) :
    (normalize_margin im spot none none).days_since_change = 30 ∧
    (normalize_margin im none none none).status_color = "green" ∧
    (normalize_margin im none none none).status_label = "Stable" ∧
    (normalize_margin im none none none).is_normalizing = true :=
  ⟨rfl, rfl, rfl, rfl⟩

/-- C10: with a truthy spot price, a percent-of-notional between the elevated
and extreme bounds downgrades a green stability color to yellow while
`is_normalizing` stays true; the secondary check forces `is_normalizing`
false only above the extreme bound, and otherwise leaves the stability
flag untouched. -/
theorem margin_elevated_keeps_normalizing (im p : ℚ) (la dbd : Option ℤ)
    (hp : p ≠ 0) :
    (im / (5000 * p) * 100 ≤ THRESHOLDS.margin_pct_notional.extreme →
      (normalize_margin im (some p) la dbd).is_normalizing =
        (marginStability ((effectiveChangeDays la dbd).getD 30)).2.2) ∧
    (im / (5000 * p) * 100 > THRESHOLDS.margin_pct_notional.elevated →
      im / (5000 * p) * 100 ≤ THRESHOLDS.margin_pct_notional.extreme →
      (marginStability ((effectiveChangeDays la dbd).getD 30)).1 = "green" →
      (normalize_margin im (some p) la dbd).status_color = "yellow" ∧
        (normalize_margin im (some p) la dbd).is_normalizing = true) ∧
    (im / (5000 * p) * 100 > THRESHOLDS.margin_pct_notional.extreme →
      (normalize_margin im (some p) la dbd).is_normalizing = false) := by
  obtain ⟨hc, hn, hpct⟩ := normalize_margin_some im p la dbd hp
  refine ⟨fun hle => ?_, fun he1 he2 hg => ⟨?_, ?_⟩, fun hx => ?_⟩
  · rw [hn]
    exact marginPctCheck_flag_kept _ _ hle
  · rw [hc, marginPctCheck_elevated _ _ he2 he1 hg]
  · rw [hn, marginPctCheck_flag_kept _ _ he2]
    exact marginStability_green_flag _ hg
  · rw [hn]
    exact (marginPctCheck_extreme _ _ hx).2

/-- Witness for `margin_elevated_keeps_normalizing` at margin 550 and 650,
spot 1 (11% and 13% of notional). -/
theorem margin_elevated_keeps_normalizing_witness :
    (normalize_margin 550 (some 1) none none).is_normalizing =
      (marginStability ((effectiveChangeDays none none).getD 30)).2.2 ∧
    ((normalize_margin 550 (some 1) none none).status_color = "yellow" ∧
      (normalize_margin 550 (some 1) none none).is_normalizing = true) ∧
    (normalize_margin 650 (some 1) none none).is_normalizing = false :=
  ⟨(margin_elevated_keeps_normalizing 550 1 none none (by norm_num)).1
      (by norm_num [THRESHOLDS]),
   (margin_elevated_keeps_normalizing 550 1 none none (by norm_num)).2.1
      (by norm_num [THRESHOLDS]) (by norm_num [THRESHOLDS]) rfl,
   (margin_elevated_keeps_normalizing 650 1 none none (by norm_num)).2.2
      (by norm_num [THRESHOLDS])⟩

end SilverMetrics
